import Mathlib

/-!
Verification development for the Calculation Orchestration Engine of
lex-app: a shallow embedding of the per-entity calculation state machine
(`CalculationModel`), the clustering dispatcher and conflict resolver
(`CalculatedModelMixin` in `calculated_model.py`), the Celery task
`calc_and_save` (`celery_tasks.py`), the operation-context manager
(`rest_api/context.py`) and the observer notification
(`rest_api/signals.py`).

Conventions of the embedding:
* attribute values are `Nat` (`Val`), field names are `String`;
* a Django model instance is an `Entity`: an object identity `oid`
  (standing for Python object identity), an optional primary key `pk`,
  and an association list of attributes; `getattr(m, f, None)` is
  `Entity.getattr`, which yields `none` for an absent attribute;
* the database is a `Storage`: a list of `Row`s plus a primary-key
  counter; the uniqueness constraint generated by
  `CalculatedModelMixinMeta` over `defining_fields` is enforced by the
  embedded `save`;
* Python exceptions are values of `PyExc`; fallible code returns
  `Except PyExc _`;
* external effects that the source merely triggers (the abstract
  `update()` body, the cache cleanup, the websocket notification, the
  Celery broker) are modelled by explicit outcome parameters that say
  whether the corresponding call raises.
-/

abbrev Val := Nat

/-- Python exception values distinguished by the engine's handlers:
`IntegrityError` (uniqueness-constraint violation), the
more-than-one-match error raised by
`delete_models_with_same_defining_fields`, and arbitrary other
exceptions. -/
inductive PyExc where
  | integrityError
  | multipleMatch
  | other (code : Nat)
deriving DecidableEq, Repr

/-- A Django model instance: `oid` models Python object identity, `pk`
the primary-key attribute (`None` before a first insert), `attrs` the
regular fields. -/
structure Entity where
  oid : Nat := 0
  pk : Option Nat := none
  attrs : List (String × Val) := []
deriving DecidableEq, Repr

/-- Association-list lookup used for attribute access. -/
def alistLookup {β : Type} (l : List (String × β)) (f : String) : Option β :=
  match l with
  | [] => none
  | (k, v) :: rest => if k == f then some v else alistLookup rest f

/-- `getattr(m, f, None)`. -/
def Entity.getattr (m : Entity) (f : String) : Option Val :=
  alistLookup m.attrs f

/-- `setattr(m, f, v)`: update the binding in place or append it. -/
def attrSet (l : List (String × Val)) (f : String) (v : Val) : List (String × Val) :=
  match l with
  | [] => [(f, v)]
  | (k, w) :: rest => if k == f then (k, v) :: rest else (k, w) :: attrSet rest f v

def Entity.setattr (m : Entity) (f : String) (v : Val) : Entity :=
  { m with attrs := attrSet m.attrs f v }

/-- A persisted database row. -/
structure Row where
  pk : Nat
  oid : Nat
  attrs : List (String × Val)
deriving DecidableEq, Repr

/-- The persistence collaborator's state: the rows plus the
auto-increment primary-key counter. -/
structure Storage where
  rows : List Row := []
  nextPk : Nat := 0
deriving DecidableEq, Repr

/-- The tuple of a record's values at the `defining_fields`, the key of
the uniqueness constraint installed by `CalculatedModelMixinMeta`. -/
def definingTuple (df : List String) (attrs : List (String × Val)) : List (Option Val) :=
  df.map (alistLookup attrs)

/-- `type(self).objects.filter(**filter_keys)` membership test: the row
agrees with the entity on every defining field. -/
def matchesDefining (df : List String) (m : Entity) (r : Row) : Bool :=
  definingTuple df r.attrs == definingTuple df m.attrs

/-- View a fetched row as the model instance Django materialises for it. -/
def rowToEntity (r : Row) : Entity :=
  { oid := r.oid, pk := some r.pk, attrs := r.attrs }

/-- `model.save()` against the embedded storage.  With `pk = None` the
save is an INSERT: it raises `IntegrityError` when `defining_fields` is
non-empty and some row already holds the same defining tuple, otherwise
it inserts with the next auto-increment key.  With a `pk` present it
updates the row of that key if it exists (raising `IntegrityError` if a
*different* row holds the same defining tuple) and inserts under that
key otherwise.  Returns the new storage and the saved instance (with its
assigned `pk`). -/
def save (df : List String) (st : Storage) (m : Entity) : Except PyExc (Storage × Entity) :=
  match m.pk with
  | some p =>
    if st.rows.any (fun r => r.pk == p) then
      if df ≠ [] ∧ st.rows.any (fun r => r.pk ≠ p ∧ matchesDefining df m r) then
        .error .integrityError
      else
        .ok ({ st with rows := st.rows.map (fun r => if r.pk == p then ⟨p, m.oid, m.attrs⟩ else r) }, m)
    else
      if df ≠ [] ∧ st.rows.any (matchesDefining df m) then
        .error .integrityError
      else
        .ok ({ st with rows := st.rows ++ [⟨p, m.oid, m.attrs⟩] }, m)
  | none =>
    if df ≠ [] ∧ st.rows.any (matchesDefining df m) then
      .error .integrityError
    else
      .ok ({ rows := st.rows ++ [⟨st.nextPk, m.oid, m.attrs⟩], nextPk := st.nextPk + 1 },
           { m with pk := some st.nextPk })

/-- `CalculatedModelMixin.delete_models_with_same_defining_fields`
(calculated_model.py:225-237).  Despite its name the body only queries:
it filters storage by the entity's defining-field values; on exactly one
match it returns that row (as a model instance), on zero matches it
returns the entity itself, on more than one it raises.  It performs no
deletion and does not modify the entity, so the storage is passed
through unchanged. -/
def delete_models_with_same_defining_fields (df : List String) (self : Entity)
    (st : Storage) : Except PyExc (Entity × Storage) :=
  match st.rows.filter (matchesDefining df self) with
  | [r] => .ok (rowToEntity r, st)
  | [] => .ok (self, st)
  | _ => .error .multipleMatch

/-! ## Operation context (`rest_api/context.py`) -/

/-- The dictionary stored in the `operation_context` context variable:
`{'operation_id': '', 'request_obj': '', 'calculation_id': '',
'audit_log_temp': None}` is the default.  `calculation_id` may be set to
`None` by `OperationContext.__enter__`, so it is an `Option String`
(`some ""` being the empty-string default). -/
structure OpCtx where
  operation_id : String
  request_obj : String
  calculation_id : Option String
  audit_log_temp : Option String
deriving DecidableEq, Repr

/-- The default value of the `operation_context` context variable. -/
def defaultOpCtx : OpCtx :=
  { operation_id := "", request_obj := "", calculation_id := some "", audit_log_temp := none }

/-- `OperationContext.__enter__` (context.py:18-24): sets a fresh context
only when the current context's `operation_id` is empty; otherwise it is
a no-op.  `freshId` stands for the generated `uuid4`. -/
def OperationContext_enter (freshId request : String) (calculation_id audit_log : Option String)
    (cur : OpCtx) : OpCtx :=
  if cur.operation_id = "" then
    { operation_id := freshId, request_obj := request,
      calculation_id := calculation_id, audit_log_temp := audit_log }
  else
    cur

/-- `OperationContext.__exit__` (context.py:32-36): unconditionally
resets the context variable to the empty default values. -/
def OperationContext_exit (_cur : OpCtx) : OpCtx :=
  defaultOpCtx

/-! ## Calculation state machine (`lex_models/CalculationModel.py`) -/

/-- The `is_calculated` statuses of `CalculationModel`. -/
inductive Status where
  | NOT_CALCULATED
  | IN_PROGRESS
  | SUCCESS
  | ERROR
  | ABORTED
deriving DecidableEq, Repr

/-- The gate of `calculate_hook` (CalculationModel.py:139-140):
`@hook(AFTER_UPDATE, condition=WhenFieldValueIs("is_calculated", IN_PROGRESS))`
`@hook(AFTER_CREATE, condition=WhenFieldValueIs("is_calculated", IN_PROGRESS))`.
django-lifecycle's `WhenFieldValueIs` compares only the field's *current*
value against the given one; it does not consult the previous value.
A `save(skip_hooks=True)` bypasses all lifecycle hooks.  `prevStatus`
is the status before the save (`none` when the save is a creation); it
is listed to make explicit that the gate ignores it. -/
def calculate_hook_fires (_prevStatus : Option Status) (savedStatus : Status)
    (skipHooks : Bool) : Bool :=
  !skipHooks && (savedStatus == Status.IN_PROGRESS)

deriving instance DecidableEq for Except

/-- Result of one synchronous execution of `execute_calculation_sync`. -/
structure SyncResult where
  finalStatus : Status
  persisted : Bool
  notified : Bool
  outcome : Except PyExc Unit
deriving DecidableEq, Repr

/-- `CalculationModel.execute_calculation_sync` (CalculationModel.py:103-137).
`updateRaises` is the outcome of the abstract `self.update()` body,
`cleanupRaises` of the cache-cleanup block, `notifyRaises` of
`update_calculation_status` (signals.py:27-51, which contains no
exception handler of its own).  The body: `try` runs `update()` (inside
`transaction.atomic()` unless `is_atomic` is `False`; the wrapper does
not change the status logic) and sets SUCCESS; `except` sets ERROR and
re-raises; `finally` swallows any cache-cleanup exception, persists the
status with `save(skip_hooks=True)` and then calls
`update_calculation_status` unguarded — an exception there escapes the
`finally` block and replaces any pending exception. -/
def execute_calculation_sync (updateRaises : Option PyExc) (_cleanupRaises : Option PyExc)
    (notifyRaises : Option PyExc) (_isAtomic : Bool) : SyncResult :=
  let status := match updateRaises with
    | none => Status.SUCCESS
    | some _ => Status.ERROR
  let pending : Except PyExc Unit := match updateRaises with
    | none => .ok ()
    | some e => .error e
  -- finally: cleanup errors are caught and logged; save(skip_hooks=True);
  -- update_calculation_status may itself raise, masking `pending`.
  match notifyRaises with
  | some e => { finalStatus := status, persisted := true, notified := true, outcome := .error e }
  | none => { finalStatus := status, persisted := true, notified := true, outcome := pending }

/-- One triggered computation attempt executed synchronously: the caller
saves the entity with `is_calculated = IN_PROGRESS` (the edge the spec
describes), `calculate_hook` fires and — with Celery unavailable — runs
`execute_calculation_sync`.  Returns the status trace
`[start, IN_PROGRESS, final]` together with the sync result. -/
def runCalculationFromTrigger (start : Status) (updateRaises cleanupRaises notifyRaises : Option PyExc) :
    List Status × SyncResult :=
  let r := execute_calculation_sync updateRaises cleanupRaises notifyRaises true
  ([start, Status.IN_PROGRESS, r.finalStatus], r)

/-! ## Save/retry protocol (`celery_tasks.py:621-683`,
`calculated_model.py:19-30`)

The per-model bodies of `calc_and_save` (the Celery task) and
`calc_and_save_sync` are embedded over an oracle for the persistence
layer: `saves` lists the outcome of each successive `model.save()` call
(`none` = the save succeeds, `some e` = it raises `e`; absent entries
default to success), and the result of
`delete_models_with_same_defining_fields` is abstracted to a
`ResolveOutcome` (it either returns `self` or the single matched row,
whose primary key is what the callers adopt). -/

/-- What `delete_models_with_same_defining_fields` returned: the entity
itself (zero matches) or the matched row carrying primary key `pk`. -/
inductive ResolveOutcome where
  | isSelf
  | matched (pk : Nat)
deriving DecidableEq, Repr

/-- Trace of processing one model through a save/retry body. -/
structure ModelRunResult where
  savesAttempted : Nat
  resolverInvoked : Bool
  adoptedPk : Option (Option Nat)
  outcome : Except PyExc Unit
deriving DecidableEq, Repr

/-- The outcome of the k-th `model.save()` call. -/
def saveAt (saves : List (Option PyExc)) (k : Nat) : Option PyExc :=
  saves.getD k none

/-- The pk adopted by `calc_and_save`'s conflict-resolution branch
(celery_tasks.py:653-662): `if existing_model != model and
existing_model.pk: model.pk = existing_model.pk else: model.pk = None`.
Django model `!=` and the truthiness of `existing_model.pk` mean the
matched row's key is adopted only when it is a distinct instance with a
non-zero pk; otherwise the pk is reset for a fresh insert. -/
def celeryAdoptPk (res : ResolveOutcome) : Option Nat :=
  match res with
  | .isSelf => none
  | .matched p => if p ≠ 0 then some p else none

/-- Per-model body of the Celery task `calc_and_save`
(celery_tasks.py:635-680): `try: model.save(); model.calculate();
model.save()`; an `IntegrityError` from the `try` block (either save —
`calculate` raising one would be caught by the same handler) triggers a
single conflict resolution (`delete_models_with_same_defining_fields`,
pk adoption, one more `model.save()`); any exception inside that
resolution — including a failure of the retried save — is re-raised,
with no further retry.  Any non-IntegrityError exception from the `try`
block is re-raised directly.  `calcRaises` is the outcome of
`model.calculate()`, `resolveRes` that of the resolver call. -/
def calc_and_save_model (saves : List (Option PyExc)) (calcRaises : Option PyExc)
    (resolveRes : Except PyExc ResolveOutcome) : ModelRunResult :=
  let handleIntegrity (savesSoFar : Nat) : ModelRunResult :=
    match resolveRes with
    | .error e => ⟨savesSoFar, true, none, .error e⟩
    | .ok res =>
      let adopted := celeryAdoptPk res
      match saveAt saves savesSoFar with
      | none => ⟨savesSoFar + 1, true, some adopted, .ok ()⟩
      | some e => ⟨savesSoFar + 1, true, some adopted, .error e⟩
  match saveAt saves 0 with
  | some .integrityError => handleIntegrity 1
  | some e => ⟨1, false, none, .error e⟩
  | none =>
    match calcRaises with
    | some .integrityError => handleIntegrity 1
    | some e => ⟨1, false, none, .error e⟩
    | none =>
      match saveAt saves 1 with
      | some .integrityError => handleIntegrity 2
      | some e => ⟨2, false, none, .error e⟩
      | none => ⟨2, false, none, .ok ()⟩

/-- Per-model body of `calc_and_save_sync` (calculated_model.py:19-30):
`model.calculate(*args)` runs outside any handler (its exceptions
propagate); then `try: model.save() except Exception: old_model =
model.delete_models_with_same_defining_fields(); model.pk =
old_model.pk; model.save()`.  *Any* exception from the first save —
not only `IntegrityError` — triggers the resolution; the adopted pk is
`old_model.pk`, i.e. the entity's own pk `mPk` when the resolver
returned `self`.  A failure of the second save propagates. -/
def calc_and_save_sync_model (mPk : Option Nat) (saves : List (Option PyExc))
    (calcRaises : Option PyExc) (resolveRes : Except PyExc ResolveOutcome) : ModelRunResult :=
  match calcRaises with
  | some e => ⟨0, false, none, .error e⟩
  | none =>
    match saveAt saves 0 with
    | none => ⟨1, false, none, .ok ()⟩
    | some _ =>
      match resolveRes with
      | .error e => ⟨1, true, none, .error e⟩
      | .ok res =>
        let adopted := match res with
          | .isSelf => mPk
          | .matched p => some p
        match saveAt saves 1 with
        | none => ⟨2, true, some adopted, .ok ()⟩
        | some e => ⟨2, true, some adopted, .error e⟩

/-! ## Expansion phase of `CalculatedModelMixin.create`
(calculated_model.py:82-103)

`kwargs` maps pinned field names to the *list* of values supplied by the
caller (the source iterates `kwargs[field_name]` exactly like a
candidate key list).  `get_selected_key_list` is the per-model candidate
enumeration, abstract in the source. -/

/-- `sorted(cls.defining_fields, key=lambda x: 0 if x in kwargs.keys() else 1)`:
Python's stable sort puts the pinned fields first, each block keeping
the declaration order. -/
def orderedDefiningFields (df : List String) (kwargs : List (String × List Val)) : List String :=
  df.filter (fun f => (alistLookup kwargs f).isSome) ++
    df.filter (fun f => !(alistLookup kwargs f).isSome)

/-- One iteration of the expansion loop for field `f`: for every model
in the working set, take `kwargs[f]` if `f` is pinned and
`model.get_selected_key_list(f)` otherwise, copy the model once per
selected value (`j_temp_models`) and set the field on each copy; the
per-model lists (`i_temp_models`) are flattened. -/
def expandStep (kwargs : List (String × List Val)) (get_selected_key_list : Entity → String → List Val)
    (models : List Entity) (f : String) : List Entity :=
  (models.map (fun m =>
    let selected := match alistLookup kwargs f with
      | some vs => vs
      | none => get_selected_key_list m f
    selected.map (fun v => m.setattr f v))).flatten

/-- The expansion phase of `create`: starting from the single template
`cls()` (`base`), fold the expansion step over the ordered defining
fields. -/
def createExpansion (df : List String) (kwargs : List (String × List Val))
    (get_selected_key_list : Entity → String → List Val) (base : Entity) : List Entity :=
  (orderedDefiningFields df kwargs).foldl (expandStep kwargs get_selected_key_list) [base]

/-! ## Partitioning phase of `create` (calculated_model.py:121-146)

The source builds `cluster_dict`, a Python dict whose values are either
nested dicts or lists of models, mutating it through the alias
`local_dict`.  Because `local_dict` can reference a dict that a later
root-level assignment detaches, the embedding models the dict objects in
a heap: `Heap` is the list of allocated dict objects, an address is an
index into it, and `local_dict` is an address.  Lists of models are
stored inline (the source only ever appends through a freshly fetched
reference, so list aliasing is immaterial).  The root `cluster_dict` is
the object at address 0. -/

/-- A value stored in a cluster dict: a nested dict (by address) or a
list of models. -/
inductive ClusterEntry where
  | sub (addr : Nat)
  | bucket (ms : List Entity)
deriving DecidableEq, Repr

/-- A Python dict object, insertion-ordered. -/
abbrev DictObj := List (Option Val × ClusterEntry)

/-- The allocated dict objects; the address is the list index. -/
abbrev Heap := List DictObj

/-- `key in d.keys()` / `d[key]`. -/
def dictLookup (d : DictObj) (k : Option Val) : Option ClusterEntry :=
  match d with
  | [] => none
  | (k', e) :: rest => if k' == k then some e else dictLookup rest k

/-- `d[key] = e`: Python 3.7 dicts keep the position of an updated key
and append a new key at the end. -/
def dictSet (d : DictObj) (k : Option Val) (e : ClusterEntry) : DictObj :=
  match d with
  | [] => [(k, e)]
  | (k', e') :: rest => if k' == k then (k', e) :: rest else (k', e') :: dictSet rest k e

def heapGet (h : Heap) (a : Nat) : DictObj := h.getD a []

def heapSet (h : Heap) (a : Nat) (d : DictObj) : Heap := h.set a d

/-- The loop `for parallel_cluster in cls.parallelizable_fields[:-1]`
(calculated_model.py:125-130) for one model: if the field's value is a
key of `local_dict`, descend (`local_dict = local_dict[attribute]`;
descending into a *list* makes every subsequent `local_dict.keys()` an
`AttributeError`, embedded as `.error`); otherwise assign a fresh empty
dict at that key of the *root* `cluster_dict` — not of `local_dict`, and
without descending. -/
def clusterInner (m : Entity) : List String → Heap → Nat → Except Unit (Heap × Nat)
  | [], h, localA => .ok (h, localA)
  | f :: rest, h, localA =>
    let attrVal := m.getattr f
    match dictLookup (heapGet h localA) attrVal with
    | some (.sub a) => clusterInner m rest h a
    | some (.bucket _) => .error ()
    | none =>
      let newAddr := h.length
      let h := h ++ [[]]
      let h := heapSet h 0 (dictSet (heapGet h 0) attrVal (.sub newAddr))
      clusterInner m rest h localA

/-- The leaf step (calculated_model.py:131-135): the last
parallelization field's value (or `None` when no parallelization fields
are declared) indexes `local_dict`; an existing list is appended to, an
absent key gets the singleton list, and an existing *dict* at that key
makes `local_dict[attribute].append(model)` an `AttributeError`. -/
def clusterLeaf (lastField : Option String) (m : Entity) (h : Heap) (localA : Nat) :
    Except Unit Heap :=
  let attrVal := match lastField with
    | some f => m.getattr f
    | none => none
  match dictLookup (heapGet h localA) attrVal with
  | some (.bucket ms) =>
    .ok (heapSet h localA (dictSet (heapGet h localA) attrVal (.bucket (ms ++ [m]))))
  | some (.sub _) => .error ()
  | none => .ok (heapSet h localA (dictSet (heapGet h localA) attrVal (.bucket [m])))

/-- Insert one model into the cluster structure: run the inner loop over
`parallelizable_fields[:-1]` starting from `local_dict = cluster_dict`
(address 0), then the leaf step. -/
def clusterOne (pfields : List String) (m : Entity) (h : Heap) : Except Unit Heap :=
  match clusterInner m pfields.dropLast h 0 with
  | .error e => .error e
  | .ok (h, localA) => clusterLeaf pfields.getLast? m h localA

/-- Build `cluster_dict` from the candidate set: the heap starts with
the single empty root dict. -/
def buildCluster (pfields : List String) (models : List Entity) : Except Unit Heap :=
  models.foldlM (fun h m => clusterOne pfields m h) [[]]

/-- `add_to_group` (calculated_model.py:137-143): walk a dict in
insertion order, recursing into nested dicts and appending each list
value as one group.  `fuel` bounds the recursion depth (nested dicts sit
at strictly larger heap addresses, so `h.length + 1` always suffices). -/
def addToGroup (h : Heap) : Nat → DictObj → List (List Entity) → List (List Entity)
  | 0, _, groups => groups
  | fuel + 1, d, groups =>
    d.foldl (fun gs p =>
      match p.2 with
      | .sub a => addToGroup h fuel (heapGet h a) gs
      | .bucket v => gs ++ [v]) groups

/-- The partitioning phase of `create`: build `cluster_dict` and read
the execution groups off it with `add_to_group(cluster_dict, [])`. -/
def clusterGroups (pfields : List String) (models : List Entity) :
    Except Unit (List (List Entity)) :=
  match buildCluster pfields models with
  | .error e => .error e
  | .ok h => .ok (addToGroup h (h.length + 1) (heapGet h 0) [])

/-! ## Local synchronous execution over storage, and the dispatch/
fallback routing of `create` (calculated_model.py:19-30, 145-223)

For the fallback-equivalence scenarios the abstract
`model.calculate(*args)` is a pure function `calcAttrs` from a model to
its recomputed attribute list (it preserves the instance, hence `oid`
and `pk`). -/

/-- One iteration of `calc_and_save_sync` against the embedded storage:
`model.calculate(*args)`, then `model.save()`; on any save exception,
`old_model = model.delete_models_with_same_defining_fields();
model.pk = old_model.pk; model.save()` (a second failure propagates). -/
def calc_and_save_sync_step (df : List String) (calcAttrs : Entity → List (String × Val))
    (st : Storage) (m0 : Entity) : Except PyExc Storage :=
  let m := { m0 with attrs := calcAttrs m0 }
  match save df st m with
  | .ok (st', _) => .ok st'
  | .error _ =>
    match delete_models_with_same_defining_fields df m st with
    | .error e => .error e
    | .ok (old_model, st) =>
      let m := { m with pk := old_model.pk }
      match save df st m with
      | .ok (st', _) => .ok st'
      | .error e => .error e

/-- `calc_and_save_sync(models, *args)`: the models in order. -/
def calc_and_save_sync_run (df : List String) (calcAttrs : Entity → List (String × Val))
    (models : List Entity) (st : Storage) : Except PyExc Storage :=
  models.foldlM (calc_and_save_sync_step df calcAttrs) st

/-- The routing part of `create` (calculated_model.py:145-223),
projected onto *which entities are run through `calc_and_save_sync`
locally, in which order*.  `models` is the candidate set after expansion
and reconciliation.  With `CELERY_ACTIVE` false the whole list is
processed locally.  With it true, the execution groups are computed by
`add_to_group`; each non-empty group is submitted via
`calc_and_save.delay` — when submission raises
(`allSubmitsRaise`, the transport-unreachable scenario) the group is
immediately processed by `calc_and_save_sync(group)`; with every
submission failed, `task_results` is empty and nothing further runs.
When submissions succeed but `ResultSet` processing itself raises
(`waitRaises`, the transport-level wait failure), the code falls back to
`calc_and_save_sync(models)` — the full candidate list.  Remote
execution itself is outside this projection. -/
def create_local_processing (celeryActive allSubmitsRaise waitRaises : Bool)
    (pfields : List String) (models : List Entity) : Except Unit (List Entity) :=
  if celeryActive then
    match clusterGroups pfields models with
    | .error e => .error e
    | .ok groups =>
      let neGroups := groups.filter (fun g => !g.isEmpty)
      if allSubmitsRaise then
        .ok neGroups.flatten
      else if neGroups.isEmpty then
        .ok []
      else if waitRaises then
        .ok models
      else
        .ok []
  else
    .ok models

/-- The externally visible per-entity outcome of a run: the persisted
attribute lists of the rows recording object `oid` (empty when the
entity was never persisted).  Primary keys are deliberately not part of
the observation. -/
def statusMapOf (st : Storage) (oid : Nat) : List (List (String × Val)) :=
  (st.rows.filter (fun r => r.oid == oid)).map (fun r => r.attrs)

/-! ## Claims -/

/-- Claim C1, counterexample: on a storage holding exactly one row
matching the entity's defining-field values, the conflict resolver does
*not* copy the matched row's primary key onto the entity and does *not*
delete the matched row from storage — it returns the matched row itself
and leaves storage untouched.  Here the entity (oid 10, computed value
`x = 99`) matches the stored row of pk 7 (oid 5, stale value `x = 42`);
the call returns that stale row with storage unchanged, which differs
both from "the entity with pk 7" and from "storage with the matched row
deleted". -/
theorem C1_counterexample :
    delete_models_with_same_defining_fields ["r"] ⟨10, none, [("r", 1), ("x", 99)]⟩
        ⟨[⟨7, 5, [("r", 1), ("x", 42)]⟩], 8⟩
      = .ok (⟨5, some 7, [("r", 1), ("x", 42)]⟩, ⟨[⟨7, 5, [("r", 1), ("x", 42)]⟩], 8⟩) ∧
    (⟨5, some 7, [("r", 1), ("x", 42)]⟩ : Entity) ≠ ⟨10, some 7, [("r", 1), ("x", 99)]⟩ ∧
    (⟨[⟨7, 5, [("r", 1), ("x", 42)]⟩], 8⟩ : Storage) ≠ ⟨[], 8⟩ := by
  refine ⟨rfl, by decide, by decide⟩

/-- Claim C1, amended: `delete_models_with_same_defining_fields` never
touches storage or the entity.  On zero matching rows it returns the
entity unchanged; on exactly one it returns the *matched row itself* (as
a model instance whose pk the callers subsequently adopt) without
deleting it; on more than one it fails with the fatal
more-than-one-match error.  In every case the storage is exactly the
input storage. -/
theorem C1_amended (df : List String) (self : Entity) (st : Storage) :
    (st.rows.filter (matchesDefining df self) = [] →
      delete_models_with_same_defining_fields df self st = .ok (self, st)) ∧
    (∀ r, st.rows.filter (matchesDefining df self) = [r] →
      delete_models_with_same_defining_fields df self st = .ok (rowToEntity r, st)) ∧
    (2 ≤ (st.rows.filter (matchesDefining df self)).length →
      delete_models_with_same_defining_fields df self st = .error .multipleMatch) := by
  refine ⟨fun h => ?_, fun r h => ?_, fun h => ?_⟩
  · simp [delete_models_with_same_defining_fields, h]
  · simp [delete_models_with_same_defining_fields, h]
  · rcases hf : st.rows.filter (matchesDefining df self) with _ | ⟨a, _ | ⟨b, t⟩⟩
    · rw [hf] at h; simp at h
    · rw [hf] at h; simp at h
    · simp [delete_models_with_same_defining_fields, hf]

/-- Claim C1, witness for the amended theorem at a concrete one-match
input. -/
theorem C1_amended_witness :
    delete_models_with_same_defining_fields ["k"] ⟨1, none, [("k", 2)]⟩ ⟨[⟨3, 4, [("k", 2)]⟩], 5⟩
      = .ok (rowToEntity ⟨3, 4, [("k", 2)]⟩, ⟨[⟨3, 4, [("k", 2)]⟩], 5⟩) :=
  (C1_amended ["k"] ⟨1, none, [("k", 2)]⟩ ⟨[⟨3, 4, [("k", 2)]⟩], 5⟩).2.1 ⟨3, 4, [("k", 2)]⟩ (by decide)

/-- Claim C2: when a save of an entity raises a uniqueness-constraint
violation (`IntegrityError`), the engine invokes the conflict resolver,
adopts the identity it returns, and retries the save exactly once
(exactly one save beyond those already attempted, independently of any
further oracle entries); the outcome is that single retried save's
outcome, so a second failure propagates with no further retry.  Stated
for the Celery task `calc_and_save` with the violation raised by its
first save (the initial insert) and by its second save (after
`calculate`), and for the fallback `calc_and_save_sync`. -/
theorem C2_retry_once (saves : List (Option PyExc)) (calcRaises : Option PyExc)
    (res : ResolveOutcome) (mPk : Option Nat) :
    (saveAt saves 0 = some PyExc.integrityError →
      calc_and_save_model saves calcRaises (Except.ok res) =
        ⟨2, true, some (celeryAdoptPk res),
          match saveAt saves 1 with | none => Except.ok () | some e => Except.error e⟩ ∧
      calc_and_save_sync_model mPk saves none (Except.ok res) =
        ⟨2, true, some (match res with | .isSelf => mPk | .matched p => some p),
          match saveAt saves 1 with | none => Except.ok () | some e => Except.error e⟩) ∧
    (saveAt saves 0 = none → calcRaises = none →
      saveAt saves 1 = some PyExc.integrityError →
      calc_and_save_model saves calcRaises (Except.ok res) =
        ⟨3, true, some (celeryAdoptPk res),
          match saveAt saves 2 with | none => Except.ok () | some e => Except.error e⟩) := by
  constructor
  · intro h0
    constructor
    · rw [calc_and_save_model.eq_def, h0]
      rcases h1 : saveAt saves 1 with _ | e <;> simp [h1]
    · rw [calc_and_save_sync_model.eq_def, h0]
      rcases h1 : saveAt saves 1 with _ | e <;> simp [h1]
  · intro h0 hc h1
    rw [calc_and_save_model.eq_def, h0, hc, h1]
    rcases h2 : saveAt saves 2 with _ | e <;> simp [h2]

/-- Claim C2, witness: a resolver match of pk 7 with the retried save
failing again — after a first-save violation both paths stop after
exactly two saves and propagate that failure; after a second-save
violation the Celery body stops after exactly three saves. -/
theorem C2_retry_once_witness :
    calc_and_save_model [some PyExc.integrityError, some (PyExc.other 3)] none
        (Except.ok (ResolveOutcome.matched 7)) =
      ⟨2, true, some (some 7), Except.error (PyExc.other 3)⟩ ∧
    calc_and_save_sync_model none [some PyExc.integrityError, some (PyExc.other 3)] none
        (Except.ok (ResolveOutcome.matched 7)) =
      ⟨2, true, some (some 7), Except.error (PyExc.other 3)⟩ ∧
    calc_and_save_model [none, some PyExc.integrityError, some (PyExc.other 4)] none
        (Except.ok (ResolveOutcome.matched 7)) =
      ⟨3, true, some (some 7), Except.error (PyExc.other 4)⟩ := by
  have ha := (C2_retry_once [some PyExc.integrityError, some (PyExc.other 3)] none
    (ResolveOutcome.matched 7) none).1 (by decide)
  have hb := (C2_retry_once [none, some PyExc.integrityError, some (PyExc.other 4)] none
    (ResolveOutcome.matched 7) none).2 (by decide) rfl (by decide)
  exact ⟨by simpa using ha.1, by simpa using ha.2, by simpa using hb⟩

/-- Number of computation attempts scheduled by a sequence of saves,
each given as (previous status, saved status, skip_hooks). -/
def attemptsScheduled (events : List (Option Status × Status × Bool)) : Nat :=
  (events.filter (fun e => calculate_hook_fires e.1 e.2.1 e.2.2)).length

/-- Claim C5, counterexample: an entity already IN_PROGRESS is saved
again with status IN_PROGRESS and hooks enabled (a redundant level
write, not an edge into IN_PROGRESS) — `calculate_hook` fires anyway,
because `WhenFieldValueIs` checks only the current value.  The claim
said such a write does not schedule a second computation attempt. -/
theorem C5_counterexample :
    calculate_hook_fires (some Status.IN_PROGRESS) Status.IN_PROGRESS false = true := by decide

/-- Claim C5, amended: the trigger is level-triggered, not
edge-triggered.  Every save with hooks enabled whose saved status is
IN_PROGRESS schedules a computation attempt regardless of the previous
status, so the sequence "set IN_PROGRESS, then redundantly re-save
IN_PROGRESS" schedules two attempts; re-triggering is prevented only by
`skip_hooks=True` writes — the write path the engine itself uses to
persist statuses. -/
theorem C5_amended :
    attemptsScheduled [(some Status.NOT_CALCULATED, Status.IN_PROGRESS, false),
                       (some Status.IN_PROGRESS, Status.IN_PROGRESS, false)] = 2 ∧
    attemptsScheduled [(some Status.NOT_CALCULATED, Status.IN_PROGRESS, false),
                       (some Status.IN_PROGRESS, Status.IN_PROGRESS, true)] = 1 ∧
    ∀ prev : Option Status, ∀ skip : Bool,
      calculate_hook_fires prev Status.IN_PROGRESS skip = !skip := by
  refine ⟨by decide, by decide, fun prev skip => ?_⟩
  simp [calculate_hook_fires]

/-- Claim C6: a triggered computation attempt executed synchronously
from a fresh entity has status trace NOT_CALCULATED → IN_PROGRESS →
SUCCESS exactly when `update()` raises nothing, and NOT_CALCULATED →
IN_PROGRESS → ERROR when it raises; in both cases the final status is
persisted (via `save(skip_hooks=True)`) and the raised exception is the
overall outcome, so an `update()` exception is re-raised to the caller
and success is the only exception-free path.  (The observer notification
is taken to succeed; its failure mode is the subject of C8.) -/
theorem C6_sync_status_paths (updateRaises cleanupRaises : Option PyExc) :
    (runCalculationFromTrigger Status.NOT_CALCULATED updateRaises cleanupRaises none).1 =
      [Status.NOT_CALCULATED, Status.IN_PROGRESS,
        match updateRaises with | none => Status.SUCCESS | some _ => Status.ERROR] ∧
    (runCalculationFromTrigger Status.NOT_CALCULATED updateRaises cleanupRaises none).2.outcome =
      (match updateRaises with | none => Except.ok () | some e => Except.error e) ∧
    (runCalculationFromTrigger Status.NOT_CALCULATED updateRaises cleanupRaises none).2.persisted = true ∧
    (runCalculationFromTrigger Status.NOT_CALCULATED updateRaises cleanupRaises none).2.notified = true := by
  rcases updateRaises with _ | e <;> exact ⟨rfl, rfl, rfl, rfl⟩

/-- Claim C8, counterexample: an exception raised inside the observer
notification `update_calculation_status` propagates out of
`execute_calculation_sync` — here a successful computation still makes
the whole call raise.  The claim said observer errors are swallowed and
never propagate to or fail the orchestration path. -/
theorem C8_counterexample :
    (execute_calculation_sync none none (some (PyExc.other 5)) true).outcome
      = Except.error (PyExc.other 5) := by rfl

/-- Claim C8, amended: inside `execute_calculation_sync` only the
*cache-cleanup* errors are swallowed and logged (the result does not
depend on the cleanup outcome at all), while an exception raised by the
observer notification `update_calculation_status` is caught nowhere: it
escapes the `finally` block, replaces any pending computation exception,
and fails the orchestration path. -/
theorem C8_amended (updateRaises cleanupRaises : Option PyExc) (e : PyExc) (atomic : Bool) :
    (execute_calculation_sync updateRaises cleanupRaises (some e) atomic).outcome
      = Except.error e ∧
    execute_calculation_sync updateRaises cleanupRaises none atomic
      = execute_calculation_sync updateRaises none none atomic := by
  rcases updateRaises with _ | u <;> exact ⟨rfl, rfl⟩

/-- Claim C9: exiting an `OperationContext` block unconditionally resets
the operation context to the empty defaults, and entering is a no-op
while a context with a non-empty operation id is active; hence a nested
enter/exit pair erases the outer operation's context (causal id,
request, calculation id) instead of restoring it. -/
theorem C9_nested_context_erased (freshId request : String) (calcId audit : Option String)
    (outer : OpCtx) (h : outer.operation_id ≠ "") :
    OperationContext_enter freshId request calcId audit outer = outer ∧
    OperationContext_exit (OperationContext_enter freshId request calcId audit outer)
      = defaultOpCtx ∧
    OperationContext_exit (OperationContext_enter freshId request calcId audit outer)
      ≠ outer := by
  refine ⟨if_neg h, rfl, fun heq => h ?_⟩
  rw [← heq]
  rfl

/-- Claim C9, witness at a concrete active outer context. -/
theorem C9_nested_context_erased_witness :
    OperationContext_enter "uuid-2" "req2" (some "c2") none ⟨"op-outer", "req1", some "c1", none⟩
      = ⟨"op-outer", "req1", some "c1", none⟩ ∧
    OperationContext_exit (OperationContext_enter "uuid-2" "req2" (some "c2") none
      ⟨"op-outer", "req1", some "c1", none⟩) = defaultOpCtx ∧
    OperationContext_exit (OperationContext_enter "uuid-2" "req2" (some "c2") none
      ⟨"op-outer", "req1", some "c1", none⟩) ≠ ⟨"op-outer", "req1", some "c1", none⟩ :=
  C9_nested_context_erased "uuid-2" "req2" (some "c2") none
    ⟨"op-outer", "req1", some "c1", none⟩ (by decide)

/-- Claim C10: in the local synchronous path (`calc_and_save_sync`) any
exception from the initial save — here an arbitrary
non-`IntegrityError` — triggers conflict resolution (the resolver is
invoked and the matched model's primary key is adopted) followed by
exactly one retried save, whereas the remote path (`calc_and_save`)
resolves only `IntegrityError` and re-raises every other exception
directly without invoking the resolver. -/
theorem C10_sync_resolves_any_exception (e : PyExc) (he : e ≠ PyExc.integrityError)
    (res : ResolveOutcome) (mPk : Option Nat) (rest : List (Option PyExc)) :
    (calc_and_save_sync_model mPk (some e :: rest) none (Except.ok res)).resolverInvoked = true ∧
    (calc_and_save_sync_model mPk (some e :: rest) none (Except.ok res)).adoptedPk =
      some (match res with | .isSelf => mPk | .matched p => some p) ∧
    (calc_and_save_sync_model mPk (some e :: rest) none (Except.ok res)).savesAttempted = 2 ∧
    calc_and_save_model (some e :: rest) none (Except.ok res) = ⟨1, false, none, Except.error e⟩ := by
  have hs : saveAt (some e :: rest) 0 = some e := rfl
  refine ⟨?_, ?_, ?_, ?_⟩
  · rw [calc_and_save_sync_model.eq_def, hs]
    rcases h1 : saveAt (some e :: rest) 1 with _ | e1 <;> simp [h1]
  · rw [calc_and_save_sync_model.eq_def, hs]
    rcases h1 : saveAt (some e :: rest) 1 with _ | e1 <;> simp [h1]
  · rw [calc_and_save_sync_model.eq_def, hs]
    rcases h1 : saveAt (some e :: rest) 1 with _ | e1 <;> simp [h1]
  · rw [calc_and_save_model.eq_def, hs]
    rcases e with _ | _ | n
    · exact absurd rfl he
    · rfl
    · rfl

/-- Claim C10, witness at a concrete non-IntegrityError save failure. -/
theorem C10_sync_resolves_any_exception_witness :
    (calc_and_save_sync_model none [some (PyExc.other 0)] none
        (Except.ok (ResolveOutcome.matched 3))).resolverInvoked = true ∧
    (calc_and_save_sync_model none [some (PyExc.other 0)] none
        (Except.ok (ResolveOutcome.matched 3))).adoptedPk = some (some 3) ∧
    (calc_and_save_sync_model none [some (PyExc.other 0)] none
        (Except.ok (ResolveOutcome.matched 3))).savesAttempted = 2 ∧
    calc_and_save_model [some (PyExc.other 0)] none (Except.ok (ResolveOutcome.matched 3)) =
      ⟨1, false, none, Except.error (PyExc.other 0)⟩ := by
  simpa using C10_sync_resolves_any_exception (PyExc.other 0) (by decide)
    (ResolveOutcome.matched 3) none []

/-- The multiplicative contribution of one defining field to the size of
the expansion: the number of supplied values when it is pinned in
`kwargs`, the (uniform) candidate count when it is not. -/
def fieldWidth (kwargs : List (String × List Val)) (n : String → Nat) (f : String) : Nat :=
  match alistLookup kwargs f with
  | some vs => vs.length
  | none => n f

theorem sum_map_const {α : Type} (l : List α) (c : Nat) :
    (l.map (fun _ => c)).sum = l.length * c := by
  induction l with
  | nil => simp
  | cons a t ih => simp [ih, Nat.succ_mul, Nat.add_comm]

theorem expandStep_length (kwargs : List (String × List Val))
    (gsl : Entity → String → List Val) (n : String → Nat)
    (hn : ∀ m f, (gsl m f).length = n f) (ms : List Entity) (f : String) :
    (expandStep kwargs gsl ms f).length = ms.length * fieldWidth kwargs n f := by
  rw [expandStep, List.length_flatten, List.map_map]
  have : (List.map
      ((fun l => l.length) ∘ fun m =>
        (match alistLookup kwargs f with
          | some vs => vs
          | none => gsl m f).map (fun v => m.setattr f v)) ms) =
      ms.map (fun _ => fieldWidth kwargs n f) := by
    apply List.map_congr_left
    intro m _
    simp only [Function.comp, List.length_map, fieldWidth]
    rcases alistLookup kwargs f with _ | vs
    · exact hn m f
    · rfl
  rw [this, sum_map_const]

theorem foldl_expandStep_length (kwargs : List (String × List Val))
    (gsl : Entity → String → List Val) (n : String → Nat)
    (hn : ∀ m f, (gsl m f).length = n f) :
    ∀ (fields : List String) (ms : List Entity),
      ((fields.foldl (expandStep kwargs gsl) ms).length) =
        ms.length * (fields.map (fieldWidth kwargs n)).prod := by
  intro fields
  induction fields with
  | nil => intro ms; simp
  | cons f rest ih =>
    intro ms
    simp only [List.foldl_cons, List.map_cons, List.prod_cons]
    rw [ih, expandStep_length kwargs gsl n hn, Nat.mul_assoc]

/-- Claim C3, counterexample: with defining fields `a`, `b`, the field
`a` pinned in the partial specification with the two values `[1, 2]`,
and the unpinned field `b` having the single candidate `5`
(so ∏ nᵢ = 1), the expansion phase of `create` produces 2 candidate
entities, not 1: a pinned field multiplies the count by the number of
values supplied for it, contradicting "fields present in the partial
specification are set directly and do not multiply the count". -/
theorem C3_counterexample :
    (createExpansion ["a", "b"] [("a", [1, 2])] (fun _ _ => [5]) {}).length = 2 ∧
    (2 : Nat) ≠ 1 := by
  exact ⟨rfl, by decide⟩

/-- Claim C3, amended: when every unpinned defining field `f` has a
uniform candidate count `n f`, the expansion phase produces exactly
`∏ over defining fields` of (number of values supplied in the partial
specification, for pinned fields; `n f`, for unpinned ones) candidate
entities.  Pinned fields given exactly one value do not multiply the
count; pinned fields given several values multiply it like candidate
lists do. -/
theorem C3_amended (df : List String) (kwargs : List (String × List Val))
    (gsl : Entity → String → List Val) (n : String → Nat) (base : Entity)
    (hn : ∀ m f, (gsl m f).length = n f) :
    (createExpansion df kwargs gsl base).length = (df.map (fieldWidth kwargs n)).prod := by
  rw [createExpansion, foldl_expandStep_length kwargs gsl n hn]
  have hperm :
      List.Perm (orderedDefiningFields df kwargs) df :=
    List.filter_append_perm (fun f => (alistLookup kwargs f).isSome) df
  simpa using (hperm.map (fieldWidth kwargs n)).prod_eq

/-- Claim C3, witness for the amended count: field `a` pinned with three
values, field `b` unpinned with two candidates — the expansion has
3 · 2 = 6 entities. -/
theorem C3_amended_witness :
    (createExpansion ["a", "b"] [("a", [1, 2, 3])] (fun _ _ => [5, 6]) {}).length =
      ((["a", "b"] : List String).map (fieldWidth [("a", [1, 2, 3])] (fun _ => 2))).prod := by
  exact C3_amended ["a", "b"] [("a", [1, 2, 3])] (fun _ _ => [5, 6]) (fun _ => 2) {}
    (fun _ _ => rfl)

/-- Claim C4: the partitioning step of `create` is *not* exhaustive for
every declared list of parallelization fields.  With the three
parallelization fields `p1, p2, p3` and the two candidate entities
below, the inner clustering loop's else-branch writes the fresh sub-dict
into the root `cluster_dict` instead of `local_dict` and never descends,
so inserting the second entity overwrites the root key `3` that held the
first entity's leaf list: the first entity (oid 1) appears in *no*
execution group.  (The intended behaviour — every candidate in exactly
one group — is what the recursive `add_to_group` walk and the spec
describe; the root-level assignment is a slip.) -/
theorem C4_partition_drops_entity :
    clusterGroups ["p1", "p2", "p3"]
        [⟨1, none, [("p1", 1), ("p2", 2), ("p3", 3)]⟩,
         ⟨2, none, [("p1", 1), ("p2", 3), ("p3", 4)]⟩]
      = .ok [[⟨2, none, [("p1", 1), ("p2", 3), ("p3", 4)]⟩]] ∧
    ([[⟨2, none, [("p1", 1), ("p2", 3), ("p3", 4)]⟩]] : List (List Entity)).countP
        (fun g => decide ((⟨1, none, [("p1", 1), ("p2", 2), ("p3", 3)]⟩ : Entity) ∈ g)) = 0 := by
  exact ⟨by decide, by decide⟩

/-- Claim C7: with distributed dispatch enabled and the transport
unreachable at submission (every `calc_and_save.delay` raises), the
engine falls back to local execution of the computed groups only — and
because the partitioning of three parallelization fields drops an entity
(see the C4 analysis), the entity of oid 1 is never processed and never
persisted, while a purely local run on the same input processes both
entities and persists a row for it.  The final persisted statuses
therefore differ from the purely local run, contradicting the claimed
equivalence; the divergence disappears exactly when no entity is lost by
the partitioning. -/
theorem C7_fallback_differs_from_local :
    create_local_processing true true false ["p1", "p2", "p3"]
        [⟨1, none, [("p1", 1), ("p2", 2), ("p3", 3)]⟩,
         ⟨2, none, [("p1", 1), ("p2", 3), ("p3", 4)]⟩]
      = .ok [⟨2, none, [("p1", 1), ("p2", 3), ("p3", 4)]⟩] ∧
    create_local_processing false false false ["p1", "p2", "p3"]
        [⟨1, none, [("p1", 1), ("p2", 2), ("p3", 3)]⟩,
         ⟨2, none, [("p1", 1), ("p2", 3), ("p3", 4)]⟩]
      = .ok [⟨1, none, [("p1", 1), ("p2", 2), ("p3", 3)]⟩,
             ⟨2, none, [("p1", 1), ("p2", 3), ("p3", 4)]⟩] ∧
    (calc_and_save_sync_run ["p3"] (fun m => m.attrs)
        [⟨2, none, [("p1", 1), ("p2", 3), ("p3", 4)]⟩] ⟨[], 0⟩).map
        (fun st => statusMapOf st 1) = .ok [] ∧
    (calc_and_save_sync_run ["p3"] (fun m => m.attrs)
        [⟨1, none, [("p1", 1), ("p2", 2), ("p3", 3)]⟩,
         ⟨2, none, [("p1", 1), ("p2", 3), ("p3", 4)]⟩] ⟨[], 0⟩).map
        (fun st => statusMapOf st 1) = .ok [[("p1", 1), ("p2", 2), ("p3", 3)]] ∧
    (Except.ok ([] : List (List (String × Val))) : Except PyExc _) ≠
      .ok [[("p1", 1), ("p2", 2), ("p3", 3)]] := by
  exact ⟨by decide, by decide, by decide, by decide, by decide⟩
